import Mathlib

/-!
Verification of the football data service (`src/app/main.py`): a FastAPI
application over MongoDB exposing CRUD endpoints for players, teams and
matches, with a test-data mutation guard and a bulk cleanup endpoint.

The embedding models each Mongo collection as a `List` of documents and each
endpoint handler as a pure function from the collection state (plus a `now`
timestamp and, for inserts, the store-assigned id) to the new state and an
HTTP-level result.  Mongo query dictionaries built by the handlers are
modelled by per-field constraint functions mirroring the dictionary
construction (`if param: query[field] = ...`) together with Mongo's
evaluation of the resulting query against a document.
-/

/-- Validity of a path identifier: `bson.ObjectId(s)` succeeds on a 24-character hexadecimal string and
raises `InvalidId` otherwise; the handlers catch that exception and return
HTTP 400. -/
def isHexDigit (c : Char) : Bool :=
  c.isDigit || ('a' ≤ c && c ≤ 'f') || ('A' ≤ c && c ≤ 'F')

def isValidObjectId (s : String) : Bool :=
  s.length == 24 && s.data.all isHexDigit

/-- Python truthiness of `existing.get("is_test")`: the field may be absent
(`none`), `False`, or `True`; only `True` is truthy. -/
def boolTruthy : Option Bool → Bool
  | some true => true
  | _ => false

/-- Mongo `$set` semantics for one field of a partial update: a supplied
value overwrites, an absent one leaves the stored value. -/
def setField {α : Type} (new old : Option α) : Option α :=
  match new with
  | some v => some v
  | none => old

/-- Mongo `update_one({"_id": oid}, ...)` rewrites the first document matching the
filter; all others are untouched. -/
def replaceFirstBy {α : Type} (p : α → Bool) (new : α) : List α → List α
  | [] => []
  | d :: rest => if p d then new :: rest else d :: replaceFirstBy p new rest

/-- Mongo `delete_many(filter)` removes every matching document and reports the
number removed (`deleted_count`). -/
def deleteMany {α : Type} (p : α → Bool) (l : List α) : List α × Nat :=
  (l.filter (fun x => !(p x)), l.countP p)

/-- The regex metacharacters of the PCRE dialect Mongo's `$regex` uses.
Filter values containing none of these are matched purely literally. -/
def regexMetaChars : List Char :=
  ['\\', '^', '$', '.', '|', '?', '*', '+', '(', ')', '[', ']', '\x7b', '\x7d']

def regexLiteralValue (s : String) : Bool :=
  s.data.all (fun c => !(regexMetaChars.contains c))

/-- One pattern character against one subject character, under option "i":
`.` matches anything, other characters match up to ASCII case.  This is
Mongo's `$regex` semantics restricted to the metacharacter fragment the
claims exercise (`.` plus literal characters). -/
def regexCharMatch (p c : Char) : Bool :=
  p == '.' || p.toLower == c.toLower

/-- The pattern matches a prefix of the subject. -/
def regexMatchAt : List Char → List Char → Bool
  | [], _ => true
  | _ :: _, [] => false
  | p :: ps, c :: cs => regexCharMatch p c && regexMatchAt ps cs

/-- Unanchored search, as `$regex` performs: the pattern may match at any
position of the subject. -/
def regexSearch (pat : List Char) : List Char → Bool
  | [] => regexMatchAt pat []
  | c :: rest => regexMatchAt pat (c :: rest) || regexSearch pat rest

/-- Case-insensitive prefix test, used to state what the spec calls
"case-insensitive substring match". -/
def ciPrefixAt : List Char → List Char → Bool
  | [], _ => true
  | _ :: _, [] => false
  | p :: ps, c :: cs => (p.toLower == c.toLower) && ciPrefixAt ps cs

def ciSubstrList (pat : List Char) : List Char → Bool
  | [] => ciPrefixAt pat []
  | c :: rest => ciPrefixAt pat (c :: rest) || ciSubstrList pat rest

/-- The spec's text-filter semantics, for comparison with the code's
regex-based behaviour: the value occurs as a case-insensitive substring. -/
def ciSubstringSpec (pat v : String) : Bool :=
  ciSubstrList pat.data v.data

/-- A Mongo range condition on one field, as built into the query dict
(`{"$gte": ...}` and/or `{"$lte": ...}`). -/
structure RangeCond where
  gte : Option Int
  lte : Option Int
deriving Repr, DecidableEq

/-- Mirrors the handlers' range construction:
`if lo is not None: query[f] = {"$gte": lo}` followed by
`if hi is not None: query.setdefault(f, {})["$lte"] = hi` —
`setdefault` extends the `$gte` dict in place when both are supplied. -/
def buildRange (lo hi : Option Int) : Option RangeCond :=
  let q0 : Option RangeCond :=
    match lo with
    | some m => some ⟨some m, none⟩
    | none => none
  match hi with
  | none => q0
  | some M =>
    match q0 with
    | some r => some ⟨r.gte, some M⟩
    | none => some ⟨none, some M⟩

/-- Mongo evaluation of a range condition: comparison operators with a
numeric operand never match a document whose field is absent or null. -/
def evalRange (r : RangeCond) (v : Option Int) : Bool :=
  match v with
  | none => false
  | some x =>
    (match r.gte with | none => true | some b => decide (b ≤ x)) &&
    (match r.lte with | none => true | some b => decide (x ≤ b))

def rangeConstraint (rc : Option RangeCond) (v : Option Int) : Bool :=
  match rc with
  | none => true
  | some r => evalRange r v

/-- A text query parameter: `if param: query[f] = {"$regex": param,
"$options": "i"}` — the key is added only for a truthy (non-`None`,
non-empty) value; Mongo then regex-searches the field, and a regex
condition never matches an absent or null field. -/
def textConstraint (param : Option String) (field : Option String) : Bool :=
  match param with
  | none => true
  | some pat =>
    if pat.isEmpty then true
    else
      match field with
      | none => false
      | some v => regexSearch pat.data v.data

/-- An identifier query parameter: `if param: query[f] = param` — exact
equality; an equality condition against a string never matches an absent or
null field. -/
def exactConstraint (param : Option String) (field : Option String) : Bool :=
  match param with
  | none => true
  | some v => if v.isEmpty then true else field == some v

/-- The `is_test` query parameter: `if is_test is not None:
query["is_test"] = is_test` — exact boolean equality, explicit `false`
included. -/
def boolConstraint (param : Option Bool) (field : Option Bool) : Bool :=
  match param with
  | none => true
  | some b => field == some b

/-- HTTP-level failures of the single-record endpoints: 400 invalid id
format, 404 not found, 403 not test data. -/
inductive ApiError where
  | invalidId
  | notFound
  | forbidden
deriving Repr, DecidableEq

deriving instance DecidableEq for Except

-- ===========================================================================
-- Players
-- ===========================================================================

/-- A document of the `players` collection.  Creation via the API inserts
explicit `None` values for unsupplied optional fields (pydantic
`model_dump`), which Mongo queries treat the same as absent fields here, so
both are `none`; documents inserted directly in the store may also lack
`name` or `is_test`. -/
structure PlayerDoc where
  id : String
  name : Option String
  position : Option String
  team_id : Option String
  age : Option Int
  nationality : Option String
  is_test : Option Bool
  created_at : Option Nat
  updated_at : Option Nat
deriving Repr, DecidableEq

/-- Model `PlayerCreate`: `name` required, the rest optional with default `None`. -/
structure PlayerCreate where
  name : String
  position : Option String
  team_id : Option String
  age : Option Int
  nationality : Option String
deriving Repr, DecidableEq

/-- Model `PlayerUpdate`: every field optional with default `None`. -/
structure PlayerUpdate where
  name : Option String
  position : Option String
  team_id : Option String
  age : Option Int
  nationality : Option String
deriving Repr, DecidableEq

/-- The query parameters of `GET /players`. -/
structure PlayerQuery where
  name : Option String
  position : Option String
  team_id : Option String
  nationality : Option String
  min_age : Option Int
  max_age : Option Int
  is_test : Option Bool
deriving Repr, DecidableEq

/-- The query dict built by `get_players`, evaluated against one document:
the conjunction of the constraints for every supplied parameter. -/
def playerPred (q : PlayerQuery) (d : PlayerDoc) : Bool :=
  textConstraint q.name d.name &&
  textConstraint q.position d.position &&
  exactConstraint q.team_id d.team_id &&
  textConstraint q.nationality d.nationality &&
  rangeConstraint (buildRange q.min_age q.max_age) d.age &&
  boolConstraint q.is_test d.is_test

/-- Endpoint `GET /players`: filter, then `.skip(skip).limit(limit)`. -/
def get_players (players : List PlayerDoc) (q : PlayerQuery)
    (skip limit : Nat) : List PlayerDoc :=
  ((players.filter (playerPred q)).drop skip).take limit

/-- Endpoint `GET /players/{player_id}`. -/
def get_player (players : List PlayerDoc) (pid : String) :
    Except ApiError PlayerDoc :=
  if isValidObjectId pid then
    match players.find? (fun d => d.id == pid) with
    | some p => .ok p
    | none => .error .notFound
  else .error .invalidId

/-- Endpoint `POST /players`: stamp `is_test=True` and `created_at=now`, insert,
return the stored document with its new id. -/
def create_player (players : List PlayerDoc) (c : PlayerCreate)
    (now : Nat) (newId : String) : List PlayerDoc × PlayerDoc :=
  let doc : PlayerDoc :=
    { id := newId, name := some c.name, position := c.position,
      team_id := c.team_id, age := c.age, nationality := c.nationality,
      is_test := some true, created_at := some now, updated_at := none }
  (players ++ [doc], doc)

def playerUpdateHasData (u : PlayerUpdate) : Bool :=
  u.name.isSome || u.position.isSome || u.team_id.isSome ||
  u.age.isSome || u.nationality.isSome

/-- The `$set` document of `update_player`: the non-`None` request fields
plus `updated_at = now`, merged into the stored document. -/
def playerApplySet (d : PlayerDoc) (u : PlayerUpdate) (now : Nat) : PlayerDoc :=
  { d with
    name := setField u.name d.name,
    position := setField u.position d.position,
    team_id := setField u.team_id d.team_id,
    age := setField u.age d.age,
    nationality := setField u.nationality d.nationality,
    updated_at := some now }

/-- Endpoint `PUT /players/{player_id}`: invalid id → 400; missing → 404; non-test →
403; otherwise `$set` the non-`None` fields plus `updated_at` (skipped
entirely when the request supplies no field) and return the re-read
document, which in this sequential model is the document just written. -/
def update_player (players : List PlayerDoc) (pid : String)
    (u : PlayerUpdate) (now : Nat) :
    List PlayerDoc × Except ApiError PlayerDoc :=
  if isValidObjectId pid then
    match players.find? (fun d => d.id == pid) with
    | none => (players, .error .notFound)
    | some existing =>
      if boolTruthy existing.is_test then
        if playerUpdateHasData u then
          let newDoc := playerApplySet existing u now
          (replaceFirstBy (fun d => d.id == pid) newDoc players, .ok newDoc)
        else (players, .ok existing)
      else (players, .error .forbidden)
  else (players, .error .invalidId)

/-- Endpoint `DELETE /players/{player_id}`: invalid id → 400; missing → 404;
non-test → 403; otherwise `delete_one` removes the matching document. -/
def delete_player (players : List PlayerDoc) (pid : String) :
    List PlayerDoc × Except ApiError Unit :=
  if isValidObjectId pid then
    match players.find? (fun d => d.id == pid) with
    | none => (players, .error .notFound)
    | some existing =>
      if boolTruthy existing.is_test then
        (players.eraseP (fun d => d.id == pid), .ok ())
      else (players, .error .forbidden)
  else (players, .error .invalidId)

-- ===========================================================================
-- Teams
-- ===========================================================================

/-- A document of the `teams` collection. -/
structure TeamDoc where
  id : String
  name : Option String
  country : Option String
  league : Option String
  stadium : Option String
  is_test : Option Bool
  created_at : Option Nat
  updated_at : Option Nat
deriving Repr, DecidableEq

/-- Model `TeamCreate`: `name` required, the rest optional with default `None`. -/
structure TeamCreate where
  name : String
  country : Option String
  league : Option String
  stadium : Option String
deriving Repr, DecidableEq

/-- Model `TeamUpdate`: every field optional with default `None`. -/
structure TeamUpdate where
  name : Option String
  country : Option String
  league : Option String
  stadium : Option String
deriving Repr, DecidableEq

/-- The query parameters of `GET /teams` (no stadium filter exists there). -/
structure TeamQuery where
  name : Option String
  country : Option String
  league : Option String
  is_test : Option Bool
deriving Repr, DecidableEq

def teamPred (q : TeamQuery) (d : TeamDoc) : Bool :=
  textConstraint q.name d.name &&
  textConstraint q.country d.country &&
  textConstraint q.league d.league &&
  boolConstraint q.is_test d.is_test

/-- Endpoint `GET /teams`. -/
def get_teams (teams : List TeamDoc) (q : TeamQuery)
    (skip limit : Nat) : List TeamDoc :=
  ((teams.filter (teamPred q)).drop skip).take limit

/-- Endpoint `GET /teams/{team_id}`. -/
def get_team (teams : List TeamDoc) (tid : String) :
    Except ApiError TeamDoc :=
  if isValidObjectId tid then
    match teams.find? (fun d => d.id == tid) with
    | some t => .ok t
    | none => .error .notFound
  else .error .invalidId

/-- Endpoint `POST /teams`. -/
def create_team (teams : List TeamDoc) (c : TeamCreate)
    (now : Nat) (newId : String) : List TeamDoc × TeamDoc :=
  let doc : TeamDoc :=
    { id := newId, name := some c.name, country := c.country,
      league := c.league, stadium := c.stadium,
      is_test := some true, created_at := some now, updated_at := none }
  (teams ++ [doc], doc)

def teamUpdateHasData (u : TeamUpdate) : Bool :=
  u.name.isSome || u.country.isSome || u.league.isSome || u.stadium.isSome

def teamApplySet (d : TeamDoc) (u : TeamUpdate) (now : Nat) : TeamDoc :=
  { d with
    name := setField u.name d.name,
    country := setField u.country d.country,
    league := setField u.league d.league,
    stadium := setField u.stadium d.stadium,
    updated_at := some now }

/-- Endpoint `PUT /teams/{team_id}`: same guard and merge as `update_player`. -/
def update_team (teams : List TeamDoc) (tid : String)
    (u : TeamUpdate) (now : Nat) :
    List TeamDoc × Except ApiError TeamDoc :=
  if isValidObjectId tid then
    match teams.find? (fun d => d.id == tid) with
    | none => (teams, .error .notFound)
    | some existing =>
      if boolTruthy existing.is_test then
        if teamUpdateHasData u then
          let newDoc := teamApplySet existing u now
          (replaceFirstBy (fun d => d.id == tid) newDoc teams, .ok newDoc)
        else (teams, .ok existing)
      else (teams, .error .forbidden)
  else (teams, .error .invalidId)

/-- Endpoint `DELETE /teams/{team_id}`. -/
def delete_team (teams : List TeamDoc) (tid : String) :
    List TeamDoc × Except ApiError Unit :=
  if isValidObjectId tid then
    match teams.find? (fun d => d.id == tid) with
    | none => (teams, .error .notFound)
    | some existing =>
      if boolTruthy existing.is_test then
        (teams.eraseP (fun d => d.id == tid), .ok ())
      else (teams, .error .forbidden)
  else (teams, .error .invalidId)

-- ===========================================================================
-- Matches
-- ===========================================================================

/-- A document of the `matches` collection; `date` is a timestamp modelled
as an integer. -/
structure MatchDoc where
  id : String
  home_team_id : Option String
  away_team_id : Option String
  date : Option Int
  home_score : Option Int
  away_score : Option Int
  stadium : Option String
  is_test : Option Bool
  created_at : Option Nat
  updated_at : Option Nat
deriving Repr, DecidableEq

/-- Model `MatchCreate`: `home_team_id` and `away_team_id` are declared as plain
`str` — required, with no default; the remaining fields are optional with
default `None`. -/
structure MatchCreate where
  home_team_id : String
  away_team_id : String
  date : Option Int
  home_score : Option Int
  away_score : Option Int
  stadium : Option String
deriving Repr, DecidableEq

/-- The raw body of a `POST /matches` request before pydantic validation:
every recognized field possibly absent. -/
structure RawMatchCreate where
  home_team_id : Option String
  away_team_id : Option String
  date : Option Int
  home_score : Option Int
  away_score : Option Int
  stadium : Option String
deriving Repr, DecidableEq

/-- Pydantic validation of `MatchCreate`: fails (HTTP 422) when a required
field is absent; absent optional fields take their declared default
`None`. -/
def parseMatchCreate (r : RawMatchCreate) : Option MatchCreate :=
  match r.home_team_id, r.away_team_id with
  | some h, some a =>
    some { home_team_id := h, away_team_id := a, date := r.date,
           home_score := r.home_score, away_score := r.away_score,
           stadium := r.stadium }
  | _, _ => none

/-- Model `MatchUpdate`: every field optional with default `None`. -/
structure MatchUpdate where
  home_team_id : Option String
  away_team_id : Option String
  date : Option Int
  home_score : Option Int
  away_score : Option Int
  stadium : Option String
deriving Repr, DecidableEq

/-- The query parameters of `GET /matches`. -/
structure MatchQuery where
  home_team_id : Option String
  away_team_id : Option String
  team_id : Option String
  stadium : Option String
  date_from : Option Int
  date_to : Option Int
  is_test : Option Bool
deriving Repr, DecidableEq

/-- The `team_id` parameter of `GET /matches`: `if team_id: query["$or"] =
[{"home_team_id": team_id}, {"away_team_id": team_id}]` — the document must
match either branch; as a top-level key the `$or` is ANDed with all other
constraints. -/
def orTeamConstraint (param : Option String) (m : MatchDoc) : Bool :=
  match param with
  | none => true
  | some t =>
    if t.isEmpty then true
    else (m.home_team_id == some t) || (m.away_team_id == some t)

def matchPred (q : MatchQuery) (m : MatchDoc) : Bool :=
  exactConstraint q.home_team_id m.home_team_id &&
  exactConstraint q.away_team_id m.away_team_id &&
  orTeamConstraint q.team_id m &&
  textConstraint q.stadium m.stadium &&
  rangeConstraint (buildRange q.date_from q.date_to) m.date &&
  boolConstraint q.is_test m.is_test

/-- Endpoint `GET /matches`. -/
def get_matches (ms : List MatchDoc) (q : MatchQuery)
    (skip limit : Nat) : List MatchDoc :=
  ((ms.filter (matchPred q)).drop skip).take limit

/-- Endpoint `GET /matches/{match_id}`. -/
def get_match (ms : List MatchDoc) (mid : String) :
    Except ApiError MatchDoc :=
  if isValidObjectId mid then
    match ms.find? (fun d => d.id == mid) with
    | some m => .ok m
    | none => .error .notFound
  else .error .invalidId

/-- Endpoint `POST /matches`. -/
def create_match (ms : List MatchDoc) (c : MatchCreate)
    (now : Nat) (newId : String) : List MatchDoc × MatchDoc :=
  let doc : MatchDoc :=
    { id := newId, home_team_id := some c.home_team_id,
      away_team_id := some c.away_team_id, date := c.date,
      home_score := c.home_score, away_score := c.away_score,
      stadium := c.stadium,
      is_test := some true, created_at := some now, updated_at := none }
  (ms ++ [doc], doc)

def matchUpdateHasData (u : MatchUpdate) : Bool :=
  u.home_team_id.isSome || u.away_team_id.isSome || u.date.isSome ||
  u.home_score.isSome || u.away_score.isSome || u.stadium.isSome

def matchApplySet (d : MatchDoc) (u : MatchUpdate) (now : Nat) : MatchDoc :=
  { d with
    home_team_id := setField u.home_team_id d.home_team_id,
    away_team_id := setField u.away_team_id d.away_team_id,
    date := setField u.date d.date,
    home_score := setField u.home_score d.home_score,
    away_score := setField u.away_score d.away_score,
    stadium := setField u.stadium d.stadium,
    updated_at := some now }

/-- Endpoint `PUT /matches/{match_id}`: same guard and merge as `update_player`. -/
def update_match (ms : List MatchDoc) (mid : String)
    (u : MatchUpdate) (now : Nat) :
    List MatchDoc × Except ApiError MatchDoc :=
  if isValidObjectId mid then
    match ms.find? (fun d => d.id == mid) with
    | none => (ms, .error .notFound)
    | some existing =>
      if boolTruthy existing.is_test then
        if matchUpdateHasData u then
          let newDoc := matchApplySet existing u now
          (replaceFirstBy (fun d => d.id == mid) newDoc ms, .ok newDoc)
        else (ms, .ok existing)
      else (ms, .error .forbidden)
  else (ms, .error .invalidId)

/-- Endpoint `DELETE /matches/{match_id}`. -/
def delete_match (ms : List MatchDoc) (mid : String) :
    List MatchDoc × Except ApiError Unit :=
  if isValidObjectId mid then
    match ms.find? (fun d => d.id == mid) with
    | none => (ms, .error .notFound)
    | some existing =>
      if boolTruthy existing.is_test then
        (ms.eraseP (fun d => d.id == mid), .ok ())
      else (ms, .error .forbidden)
  else (ms, .error .invalidId)

-- ===========================================================================
-- Cleanup
-- ===========================================================================

/-- The whole store: the three collections. -/
structure DB where
  players : List PlayerDoc
  teams : List TeamDoc
  matchList : List MatchDoc
deriving Repr, DecidableEq

/-- The per-collection `deleted_count` values reported by the cleanup
endpoint. -/
structure CleanupCounts where
  players : Nat
  teams : Nat
  matchList : Nat
deriving Repr, DecidableEq

/-- Endpoint `DELETE /cleanup/test-data`: `delete_many({"is_test": True})` on each
of the three collections independently, reporting each count. -/
def cleanup_test_data (db : DB) : DB × CleanupCounts :=
  let pr := deleteMany (fun d : PlayerDoc => d.is_test == some true) db.players
  let tr := deleteMany (fun d : TeamDoc => d.is_test == some true) db.teams
  let mr := deleteMany (fun d : MatchDoc => d.is_test == some true) db.matchList
  ({ players := pr.1, teams := tr.1, matchList := mr.1 },
   { players := pr.2, teams := tr.2, matchList := mr.2 })

/-- A Prop describing the partial-merge result on one field: a supplied
value overwrites, an absent one leaves the stored value. -/
def mergesTo {α : Type} (sup old new : Option α) : Prop :=
  match sup with
  | some v => new = some v
  | none => new = old

-- ===========================================================================
-- Helper lemmas
-- ===========================================================================

theorem regexCharMatch_of_ne_dot {p c : Char} (hp : p ≠ '.') :
    regexCharMatch p c = (p.toLower == c.toLower) := by
  simp [regexCharMatch, hp]

theorem regexMatchAt_eq_ciPrefixAt {pat : List Char}
    (hpat : ∀ c ∈ pat, c ≠ '.') (s : List Char) :
    regexMatchAt pat s = ciPrefixAt pat s := by
  induction pat generalizing s with
  | nil => cases s <;> rfl
  | cons p ps ih =>
    cases s with
    | nil => rfl
    | cons c cs =>
      have hp : p ≠ '.' := hpat p (by simp)
      have hps : ∀ c ∈ ps, c ≠ '.' := fun c hc => hpat c (by simp [hc])
      simp [regexMatchAt, ciPrefixAt, regexCharMatch_of_ne_dot hp, ih hps]

theorem regexSearch_eq_ciSubstrList {pat : List Char}
    (hpat : ∀ c ∈ pat, c ≠ '.') (s : List Char) :
    regexSearch pat s = ciSubstrList pat s := by
  induction s with
  | nil => simp [regexSearch, ciSubstrList, regexMatchAt_eq_ciPrefixAt hpat]
  | cons c cs ih =>
    simp [regexSearch, ciSubstrList, regexMatchAt_eq_ciPrefixAt hpat, ih]

theorem no_dot_of_regexLiteralValue {pat : String}
    (h : regexLiteralValue pat = true) : ∀ c ∈ pat.data, c ≠ '.' := by
  intro c hc
  have := (List.all_eq_true.mp h) c hc
  simp [regexMetaChars] at this
  exact this.2.2.2.1

/-- For a non-empty filter value free of regex metacharacters, the text
constraint is exactly the spec's case-insensitive substring test. -/
theorem textConstraint_literal {pat : String} (field : Option String)
    (hlit : regexLiteralValue pat = true) (hne : pat.isEmpty = false) :
    (textConstraint (some pat) field = true ↔
      ∃ v, field = some v ∧ ciSubstringSpec pat v = true) := by
  cases field with
  | none => simp [textConstraint, hne]
  | some v =>
    simp [textConstraint, hne, ciSubstringSpec,
      regexSearch_eq_ciSubstrList (no_dot_of_regexLiteralValue hlit)]

theorem mem_filterTake {α : Type} (l : List α) (p : α → Bool) (limit : Nat)
    (h : (l.filter p).length ≤ limit) (x : α) :
    x ∈ ((l.filter p).drop 0).take limit ↔ x ∈ l ∧ p x = true := by
  rw [List.drop_zero, List.take_of_length_le h, List.mem_filter]

theorem find?_eraseP_of_countP_le_one {α : Type} (p : α → Bool)
    (l : List α) (h : l.countP p ≤ 1) : (l.eraseP p).find? p = none := by
  induction l with
  | nil => rfl
  | cons a t ih =>
    by_cases hp : p a = true
    · rw [List.eraseP_cons_of_pos hp]
      rw [List.countP_cons_of_pos _ _ hp] at h
      have ht : t.countP p = 0 := by omega
      rw [List.find?_eq_none]
      intro x hx
      have := List.countP_eq_zero.mp ht x hx
      simp [this]
    · rw [List.eraseP_cons_of_neg (by simp [hp])]
      rw [List.countP_cons_of_neg _ _ (by simp [hp])] at h
      rw [List.find?_cons_of_neg _ (by simp [hp])]
      exact ih h

-- ===========================================================================
-- Claims
-- ===========================================================================

/-- C1: for every record whose stored `is_test` attribute is absent or not
true, and for every well-formed identifier resolving to that record, both
the update and the delete operation — on players, teams and matches alike —
fail with Forbidden (403) and leave the whole collection state, hence the
record's fields and its `updated_at`, completely unchanged. -/
theorem spec_C1_guard_forbidden :
    (∀ (players : List PlayerDoc) (pid : String) (u : PlayerUpdate)
       (now : Nat) (d : PlayerDoc),
       isValidObjectId pid = true →
       players.find? (fun x => x.id == pid) = some d →
       boolTruthy d.is_test = false →
       update_player players pid u now = (players, .error .forbidden) ∧
       delete_player players pid = (players, .error .forbidden)) ∧
    (∀ (teams : List TeamDoc) (tid : String) (u : TeamUpdate)
       (now : Nat) (d : TeamDoc),
       isValidObjectId tid = true →
       teams.find? (fun x => x.id == tid) = some d →
       boolTruthy d.is_test = false →
       update_team teams tid u now = (teams, .error .forbidden) ∧
       delete_team teams tid = (teams, .error .forbidden)) ∧
    (∀ (ms : List MatchDoc) (mid : String) (u : MatchUpdate)
       (now : Nat) (d : MatchDoc),
       isValidObjectId mid = true →
       ms.find? (fun x => x.id == mid) = some d →
       boolTruthy d.is_test = false →
       update_match ms mid u now = (ms, .error .forbidden) ∧
       delete_match ms mid = (ms, .error .forbidden)) := by
  refine ⟨?_, ?_, ?_⟩ <;> intro coll cid u now d h1 h2 h3 <;>
    constructor <;>
    simp [update_player, delete_player, update_team, delete_team,
      update_match, delete_match, h1, h2, h3]

/-- C1 witness: a production player (`is_test` absent) under a well-formed
identifier is rejected with Forbidden by both update and delete, the
collection unchanged. -/
theorem spec_C1_witness :
    isValidObjectId "0123456789abcdef01234567" = true ∧
    boolTruthy (none : Option Bool) = false ∧
    update_player
      [⟨"0123456789abcdef01234567", some "Zidane", none, none, none, none,
        none, some 0, none⟩]
      "0123456789abcdef01234567" ⟨some "Zizou", none, none, none, none⟩ 3 =
      ([⟨"0123456789abcdef01234567", some "Zidane", none, none, none, none,
        none, some 0, none⟩], .error .forbidden) ∧
    delete_player
      [⟨"0123456789abcdef01234567", some "Zidane", none, none, none, none,
        none, some 0, none⟩]
      "0123456789abcdef01234567" =
      ([⟨"0123456789abcdef01234567", some "Zidane", none, none, none, none,
        none, some 0, none⟩], .error .forbidden) := by
  refine ⟨by decide, rfl, ?_, ?_⟩
  · exact (spec_C1_guard_forbidden.1
      [⟨"0123456789abcdef01234567", some "Zidane", none, none, none, none,
        none, some 0, none⟩]
      "0123456789abcdef01234567" ⟨some "Zizou", none, none, none, none⟩ 3
      ⟨"0123456789abcdef01234567", some "Zidane", none, none, none, none,
        none, some 0, none⟩
      (by decide) (by decide) rfl).1
  · exact (spec_C1_guard_forbidden.1
      [⟨"0123456789abcdef01234567", some "Zidane", none, none, none, none,
        none, some 0, none⟩]
      "0123456789abcdef01234567" ⟨some "Zizou", none, none, none, none⟩ 3
      ⟨"0123456789abcdef01234567", some "Zidane", none, none, none, none,
        none, some 0, none⟩
      (by decide) (by decide) rfl).2

/-- C2: for every valid creation input on any of the three collections, the
create operation stores and returns a record with `is_test = true` and a
non-empty (`some now`) `created_at`; since these stamps are unconditional,
the creation API offers no way to produce a record with `is_test` false or
absent. -/
theorem spec_C2_create_tags_test_data :
    ∀ (now : Nat) (newId : String),
    (∀ (players : List PlayerDoc) (c : PlayerCreate),
       (create_player players c now newId).2.is_test = some true ∧
       (create_player players c now newId).2.created_at = some now ∧
       (create_player players c now newId).2 ∈
         (create_player players c now newId).1) ∧
    (∀ (teams : List TeamDoc) (c : TeamCreate),
       (create_team teams c now newId).2.is_test = some true ∧
       (create_team teams c now newId).2.created_at = some now ∧
       (create_team teams c now newId).2 ∈ (create_team teams c now newId).1) ∧
    (∀ (ms : List MatchDoc) (c : MatchCreate),
       (create_match ms c now newId).2.is_test = some true ∧
       (create_match ms c now newId).2.created_at = some now ∧
       (create_match ms c now newId).2 ∈ (create_match ms c now newId).1) := by
  intro now newId
  refine ⟨fun l c => ?_, fun l c => ?_, fun l c => ?_⟩ <;>
    simp [create_player, create_team, create_match]

/-- C4: cleanup removes from each of the three collections exactly the
records whose stored `is_test` equals `true`, leaves every record with
`is_test` absent or false in place, and reports per collection the number
of records removed. -/
theorem spec_C4_cleanup_scope :
    ∀ (db : DB),
    (∀ d : PlayerDoc,
       d ∈ (cleanup_test_data db).1.players ↔
         d ∈ db.players ∧ d.is_test ≠ some true) ∧
    (∀ d : TeamDoc,
       d ∈ (cleanup_test_data db).1.teams ↔
         d ∈ db.teams ∧ d.is_test ≠ some true) ∧
    (∀ d : MatchDoc,
       d ∈ (cleanup_test_data db).1.matchList ↔
         d ∈ db.matchList ∧ d.is_test ≠ some true) ∧
    (cleanup_test_data db).2.players =
      db.players.countP (fun d => d.is_test == some true) ∧
    (cleanup_test_data db).2.teams =
      db.teams.countP (fun d => d.is_test == some true) ∧
    (cleanup_test_data db).2.matchList =
      db.matchList.countP (fun d => d.is_test == some true) := by
  intro db
  refine ⟨fun d => ?_, fun d => ?_, fun d => ?_, rfl, rfl, rfl⟩ <;>
    simp [cleanup_test_data, deleteMany, List.mem_filter]

theorem mergesTo_setField {α : Type} (sup old : Option α) :
    mergesTo sup old (setField sup old) := by
  cases sup <;> simp [mergesTo, setField]

/-- C3 counterexample: an authorized update (well-formed identifier, record
with `is_test = true`) that supplies no field succeeds but does not set
`updated_at` to now: the handler skips the write entirely when the `$set`
document is empty, so the returned record still has `updated_at` absent. -/
theorem spec_C3_counterexample :
    isValidObjectId "aaaaaaaaaaaaaaaaaaaaaaaa" = true ∧
    boolTruthy (some true) = true ∧
    update_player
      [⟨"aaaaaaaaaaaaaaaaaaaaaaaa", some "Alice", none, none, some 25, none,
        some true, some 0, none⟩]
      "aaaaaaaaaaaaaaaaaaaaaaaa" ⟨none, none, none, none, none⟩ 7 =
      ([⟨"aaaaaaaaaaaaaaaaaaaaaaaa", some "Alice", none, none, some 25, none,
        some true, some 0, none⟩],
       .ok ⟨"aaaaaaaaaaaaaaaaaaaaaaaa", some "Alice", none, none, some 25,
         none, some true, some 0, none⟩) ∧
    (⟨"aaaaaaaaaaaaaaaaaaaaaaaa", some "Alice", none, none, some 25, none,
      some true, some 0, none⟩ : PlayerDoc).updated_at = none := by
  refine ⟨by decide, rfl, by decide, rfl⟩

/-- C3 amended: for every authorized update that supplies at least one
field, exactly the supplied non-absent request fields are overwritten,
`updated_at` is set to now, and every other field — `id`, `created_at` and
`is_test` included, which the update model cannot carry — retains its
stored value (in particular no present field is ever unset); an authorized
update supplying no field at all performs no write: the record, its
`updated_at` included, is returned unchanged.  Uniformly across the three
collections. -/
theorem spec_C3_amended_update_merge :
    (∀ (players : List PlayerDoc) (pid : String) (u : PlayerUpdate)
       (now : Nat) (d : PlayerDoc),
       isValidObjectId pid = true →
       players.find? (fun x => x.id == pid) = some d →
       boolTruthy d.is_test = true →
       (playerUpdateHasData u = true →
         ∃ r, update_player players pid u now =
             (replaceFirstBy (fun x => x.id == pid) r players, .ok r) ∧
           r.id = d.id ∧ r.created_at = d.created_at ∧ r.is_test = d.is_test ∧
           r.updated_at = some now ∧
           mergesTo u.name d.name r.name ∧
           mergesTo u.position d.position r.position ∧
           mergesTo u.team_id d.team_id r.team_id ∧
           mergesTo u.age d.age r.age ∧
           mergesTo u.nationality d.nationality r.nationality) ∧
       (playerUpdateHasData u = false →
         update_player players pid u now = (players, .ok d))) ∧
    (∀ (teams : List TeamDoc) (tid : String) (u : TeamUpdate)
       (now : Nat) (d : TeamDoc),
       isValidObjectId tid = true →
       teams.find? (fun x => x.id == tid) = some d →
       boolTruthy d.is_test = true →
       (teamUpdateHasData u = true →
         ∃ r, update_team teams tid u now =
             (replaceFirstBy (fun x => x.id == tid) r teams, .ok r) ∧
           r.id = d.id ∧ r.created_at = d.created_at ∧ r.is_test = d.is_test ∧
           r.updated_at = some now ∧
           mergesTo u.name d.name r.name ∧
           mergesTo u.country d.country r.country ∧
           mergesTo u.league d.league r.league ∧
           mergesTo u.stadium d.stadium r.stadium) ∧
       (teamUpdateHasData u = false →
         update_team teams tid u now = (teams, .ok d))) ∧
    (∀ (ms : List MatchDoc) (mid : String) (u : MatchUpdate)
       (now : Nat) (d : MatchDoc),
       isValidObjectId mid = true →
       ms.find? (fun x => x.id == mid) = some d →
       boolTruthy d.is_test = true →
       (matchUpdateHasData u = true →
         ∃ r, update_match ms mid u now =
             (replaceFirstBy (fun x => x.id == mid) r ms, .ok r) ∧
           r.id = d.id ∧ r.created_at = d.created_at ∧ r.is_test = d.is_test ∧
           r.updated_at = some now ∧
           mergesTo u.home_team_id d.home_team_id r.home_team_id ∧
           mergesTo u.away_team_id d.away_team_id r.away_team_id ∧
           mergesTo u.date d.date r.date ∧
           mergesTo u.home_score d.home_score r.home_score ∧
           mergesTo u.away_score d.away_score r.away_score ∧
           mergesTo u.stadium d.stadium r.stadium) ∧
       (matchUpdateHasData u = false →
         update_match ms mid u now = (ms, .ok d))) := by
  refine ⟨?_, ?_, ?_⟩
  · intro players pid u now d h1 h2 h3
    refine ⟨fun hu => ⟨playerApplySet d u now, ?_, rfl, rfl, rfl, rfl,
        mergesTo_setField _ _, mergesTo_setField _ _, mergesTo_setField _ _,
        mergesTo_setField _ _, mergesTo_setField _ _⟩,
      fun hu => ?_⟩ <;>
      simp [update_player, h1, h2, h3, hu]
  · intro teams tid u now d h1 h2 h3
    refine ⟨fun hu => ⟨teamApplySet d u now, ?_, rfl, rfl, rfl, rfl,
        mergesTo_setField _ _, mergesTo_setField _ _, mergesTo_setField _ _,
        mergesTo_setField _ _⟩,
      fun hu => ?_⟩ <;>
      simp [update_team, h1, h2, h3, hu]
  · intro ms mid u now d h1 h2 h3
    refine ⟨fun hu => ⟨matchApplySet d u now, ?_, rfl, rfl, rfl, rfl,
        mergesTo_setField _ _, mergesTo_setField _ _, mergesTo_setField _ _,
        mergesTo_setField _ _, mergesTo_setField _ _, mergesTo_setField _ _⟩,
      fun hu => ?_⟩ <;>
      simp [update_match, h1, h2, h3, hu]

/-- C3 witness: updating a test player's age to 22 at time 9 overwrites
exactly that field, sets `updated_at`, and leaves the rest as stored. -/
theorem spec_C3_witness :
    isValidObjectId "aaaaaaaaaaaaaaaaaaaaaaaa" = true ∧
    boolTruthy (some true) = true ∧
    playerUpdateHasData ⟨none, none, none, some 22, none⟩ = true ∧
    (∃ r, update_player
        [⟨"aaaaaaaaaaaaaaaaaaaaaaaa", some "Alice", none, none, some 25, none,
          some true, some 0, none⟩]
        "aaaaaaaaaaaaaaaaaaaaaaaa" ⟨none, none, none, some 22, none⟩ 9 =
        (replaceFirstBy (fun x => x.id == "aaaaaaaaaaaaaaaaaaaaaaaa") r
          [⟨"aaaaaaaaaaaaaaaaaaaaaaaa", some "Alice", none, none, some 25,
            none, some true, some 0, none⟩], .ok r) ∧
      r.id = "aaaaaaaaaaaaaaaaaaaaaaaa" ∧ r.created_at = some 0 ∧
      r.is_test = some true ∧ r.updated_at = some 9 ∧
      r.name = some "Alice" ∧ r.age = some 22) := by
  refine ⟨by decide, rfl, rfl, ?_⟩
  obtain ⟨r, heq, hid, hcr, hte, hup, hn, _, _, ha, _⟩ :=
    (spec_C3_amended_update_merge.1
      [⟨"aaaaaaaaaaaaaaaaaaaaaaaa", some "Alice", none, none, some 25, none,
        some true, some 0, none⟩]
      "aaaaaaaaaaaaaaaaaaaaaaaa" ⟨none, none, none, some 22, none⟩ 9
      ⟨"aaaaaaaaaaaaaaaaaaaaaaaa", some "Alice", none, none, some 25, none,
        some true, some 0, none⟩
      (by decide) (by decide) rfl).1 rfl
  exact ⟨r, heq, hid, hcr, hte, hup, hn, ha⟩

theorem textConstraint_none (f : Option String) : textConstraint none f = true := rfl

theorem exactConstraint_none (f : Option String) : exactConstraint none f = true := rfl

theorem boolConstraint_none (f : Option Bool) : boolConstraint none f = true := rfl

theorem rangeConstraint_none (v : Option Int) :
    rangeConstraint (buildRange none none) v = true := rfl

theorem orTeamConstraint_none (m : MatchDoc) : orTeamConstraint none m = true := rfl

/-- C5 counterexample: the filter value is passed to the store as a raw
regular expression, not escaped to a literal.  Filtering players by
`name=.` returns the player named "ab" although "." does not occur as a
(case-insensitive) substring of "ab" — refuting the included-iff-substring
claim. -/
theorem spec_C5_counterexample :
    ((⟨"aaaaaaaaaaaaaaaaaaaaaaaa", some "ab", none, none, none, none,
        some true, some 0, none⟩ : PlayerDoc) ∈
      get_players
        [⟨"aaaaaaaaaaaaaaaaaaaaaaaa", some "ab", none, none, none, none,
          some true, some 0, none⟩]
        ⟨some ".", none, none, none, none, none, none⟩ 0 100) ∧
    ciSubstringSpec "." "ab" = false := by
  refine ⟨by decide, by decide⟩

/-- C5 amended: an absent text parameter imposes no constraint; a supplied
non-empty value is interpreted by the store as a case-insensitive regular
expression, which for values free of regex metacharacters is exactly the
claimed case-insensitive substring test — stated for the underlying
constraint, for each text filter of the three list operations (players:
name, position, nationality; teams: name, country, league; matches:
stadium), and at the returned-list level for one filter per collection. -/
theorem spec_C5_amended_text_filters :
    (∀ (field : Option String), textConstraint none field = true) ∧
    (∀ (pat : String) (field : Option String),
       regexLiteralValue pat = true → pat.isEmpty = false →
       (textConstraint (some pat) field = true ↔
         ∃ v, field = some v ∧ ciSubstringSpec pat v = true)) ∧
    (∀ (pat : String) (d : PlayerDoc),
       regexLiteralValue pat = true → pat.isEmpty = false →
       (playerPred ⟨some pat, none, none, none, none, none, none⟩ d = true ↔
         ∃ v, d.name = some v ∧ ciSubstringSpec pat v = true)) ∧
    (∀ (pat : String) (d : PlayerDoc),
       regexLiteralValue pat = true → pat.isEmpty = false →
       (playerPred ⟨none, some pat, none, none, none, none, none⟩ d = true ↔
         ∃ v, d.position = some v ∧ ciSubstringSpec pat v = true)) ∧
    (∀ (pat : String) (d : PlayerDoc),
       regexLiteralValue pat = true → pat.isEmpty = false →
       (playerPred ⟨none, none, none, some pat, none, none, none⟩ d = true ↔
         ∃ v, d.nationality = some v ∧ ciSubstringSpec pat v = true)) ∧
    (∀ (pat : String) (d : TeamDoc),
       regexLiteralValue pat = true → pat.isEmpty = false →
       (teamPred ⟨some pat, none, none, none⟩ d = true ↔
         ∃ v, d.name = some v ∧ ciSubstringSpec pat v = true)) ∧
    (∀ (pat : String) (d : TeamDoc),
       regexLiteralValue pat = true → pat.isEmpty = false →
       (teamPred ⟨none, some pat, none, none⟩ d = true ↔
         ∃ v, d.country = some v ∧ ciSubstringSpec pat v = true)) ∧
    (∀ (pat : String) (d : TeamDoc),
       regexLiteralValue pat = true → pat.isEmpty = false →
       (teamPred ⟨none, none, some pat, none⟩ d = true ↔
         ∃ v, d.league = some v ∧ ciSubstringSpec pat v = true)) ∧
    (∀ (pat : String) (m : MatchDoc),
       regexLiteralValue pat = true → pat.isEmpty = false →
       (matchPred ⟨none, none, none, some pat, none, none, none⟩ m = true ↔
         ∃ v, m.stadium = some v ∧ ciSubstringSpec pat v = true)) ∧
    (∀ (pat : String) (db : List PlayerDoc) (limit : Nat) (d : PlayerDoc),
       regexLiteralValue pat = true → pat.isEmpty = false →
       (db.filter
         (playerPred ⟨some pat, none, none, none, none, none, none⟩)).length ≤
           limit →
       (d ∈ get_players db ⟨some pat, none, none, none, none, none, none⟩
          0 limit ↔
         d ∈ db ∧ ∃ v, d.name = some v ∧ ciSubstringSpec pat v = true)) ∧
    (∀ (pat : String) (db : List TeamDoc) (limit : Nat) (d : TeamDoc),
       regexLiteralValue pat = true → pat.isEmpty = false →
       (db.filter (teamPred ⟨none, some pat, none, none⟩)).length ≤ limit →
       (d ∈ get_teams db ⟨none, some pat, none, none⟩ 0 limit ↔
         d ∈ db ∧ ∃ v, d.country = some v ∧ ciSubstringSpec pat v = true)) ∧
    (∀ (pat : String) (db : List MatchDoc) (limit : Nat) (m : MatchDoc),
       regexLiteralValue pat = true → pat.isEmpty = false →
       (db.filter
         (matchPred ⟨none, none, none, some pat, none, none, none⟩)).length ≤
           limit →
       (m ∈ get_matches db ⟨none, none, none, some pat, none, none, none⟩
          0 limit ↔
         m ∈ db ∧ ∃ v, m.stadium = some v ∧ ciSubstringSpec pat v = true)) := by
  have hp1 : ∀ (pat : String) (d : PlayerDoc),
      playerPred ⟨some pat, none, none, none, none, none, none⟩ d =
        textConstraint (some pat) d.name := by
    intro pat d
    simp [playerPred, textConstraint_none, exactConstraint_none,
      boolConstraint_none, rangeConstraint_none]
  have hp2 : ∀ (pat : String) (d : PlayerDoc),
      playerPred ⟨none, some pat, none, none, none, none, none⟩ d =
        textConstraint (some pat) d.position := by
    intro pat d
    simp [playerPred, textConstraint_none, exactConstraint_none,
      boolConstraint_none, rangeConstraint_none]
  have hp3 : ∀ (pat : String) (d : PlayerDoc),
      playerPred ⟨none, none, none, some pat, none, none, none⟩ d =
        textConstraint (some pat) d.nationality := by
    intro pat d
    simp [playerPred, textConstraint_none, exactConstraint_none,
      boolConstraint_none, rangeConstraint_none]
  have ht1 : ∀ (pat : String) (d : TeamDoc),
      teamPred ⟨some pat, none, none, none⟩ d =
        textConstraint (some pat) d.name := by
    intro pat d
    simp [teamPred, textConstraint_none, boolConstraint_none]
  have ht2 : ∀ (pat : String) (d : TeamDoc),
      teamPred ⟨none, some pat, none, none⟩ d =
        textConstraint (some pat) d.country := by
    intro pat d
    simp [teamPred, textConstraint_none, boolConstraint_none]
  have ht3 : ∀ (pat : String) (d : TeamDoc),
      teamPred ⟨none, none, some pat, none⟩ d =
        textConstraint (some pat) d.league := by
    intro pat d
    simp [teamPred, textConstraint_none, boolConstraint_none]
  have hm1 : ∀ (pat : String) (m : MatchDoc),
      matchPred ⟨none, none, none, some pat, none, none, none⟩ m =
        textConstraint (some pat) m.stadium := by
    intro pat m
    simp [matchPred, textConstraint_none, exactConstraint_none,
      boolConstraint_none, rangeConstraint_none, orTeamConstraint_none]
  refine ⟨textConstraint_none, fun pat f => textConstraint_literal f,
    fun pat d hl hn => ?_, fun pat d hl hn => ?_, fun pat d hl hn => ?_,
    fun pat d hl hn => ?_, fun pat d hl hn => ?_, fun pat d hl hn => ?_,
    fun pat m hl hn => ?_, fun pat db limit d hl hn hlen => ?_,
    fun pat db limit d hl hn hlen => ?_, fun pat db limit m hl hn hlen => ?_⟩
  · rw [hp1]; exact textConstraint_literal _ hl hn
  · rw [hp2]; exact textConstraint_literal _ hl hn
  · rw [hp3]; exact textConstraint_literal _ hl hn
  · rw [ht1]; exact textConstraint_literal _ hl hn
  · rw [ht2]; exact textConstraint_literal _ hl hn
  · rw [ht3]; exact textConstraint_literal _ hl hn
  · rw [hm1]; exact textConstraint_literal _ hl hn
  · unfold get_players
    rw [mem_filterTake _ _ _ hlen]
    exact and_congr_right fun _ => by
      rw [hp1]; exact textConstraint_literal _ hl hn
  · unfold get_teams
    rw [mem_filterTake _ _ _ hlen]
    exact and_congr_right fun _ => by
      rw [ht2]; exact textConstraint_literal _ hl hn
  · unfold get_matches
    rw [mem_filterTake _ _ _ hlen]
    exact and_congr_right fun _ => by
      rw [hm1]; exact textConstraint_literal _ hl hn

/-- C5 witness: filtering players by `name=lic` (a metacharacter-free
value) returns exactly the stored player whose name "Alice" contains "lic"
case-insensitively. -/
theorem spec_C5_witness :
    regexLiteralValue "lic" = true ∧ "lic".isEmpty = false ∧
    (List.filter
      (playerPred ⟨some "lic", none, none, none, none, none, none⟩)
      [⟨"aaaaaaaaaaaaaaaaaaaaaaaa", some "Alice", none, none, none, none,
        some true, some 0, none⟩]).length ≤ 100 ∧
    ((⟨"aaaaaaaaaaaaaaaaaaaaaaaa", some "Alice", none, none, none, none,
        some true, some 0, none⟩ : PlayerDoc) ∈
      get_players
        [⟨"aaaaaaaaaaaaaaaaaaaaaaaa", some "Alice", none, none, none, none,
          some true, some 0, none⟩]
        ⟨some "lic", none, none, none, none, none, none⟩ 0 100) := by
  refine ⟨by decide, by decide, by decide, ?_⟩
  exact ((spec_C5_amended_text_filters.2.2.2.2.2.2.2.2.2.1
    "lic"
    [⟨"aaaaaaaaaaaaaaaaaaaaaaaa", some "Alice", none, none, none, none,
      some true, some 0, none⟩]
    100
    ⟨"aaaaaaaaaaaaaaaaaaaaaaaa", some "Alice", none, none, none, none,
      some true, some 0, none⟩
    (by decide) (by decide) (by decide)).mpr
    ⟨by decide, "Alice", rfl, by decide⟩)

/-- C6: for the inclusive range filters — `min_age`/`max_age` on players and
`date_from`/`date_to` on matches — a lower bound alone selects exactly the
records with field value ≥ the bound, an upper bound alone exactly those
with value ≤ the bound, and both together exactly the closed range (the
`setdefault` merge keeps the `$gte` key when `$lte` is added); at the
returned-list level a player is listed under both bounds iff its age lies
in the closed range, e.g. age 25 under `min_age=20&max_age=30`. -/
theorem spec_C6_range_filters :
    (∀ (m : Int) (d : PlayerDoc),
       (playerPred ⟨none, none, none, none, some m, none, none⟩ d = true ↔
         ∃ x, d.age = some x ∧ m ≤ x)) ∧
    (∀ (M : Int) (d : PlayerDoc),
       (playerPred ⟨none, none, none, none, none, some M, none⟩ d = true ↔
         ∃ x, d.age = some x ∧ x ≤ M)) ∧
    (∀ (m M : Int) (d : PlayerDoc),
       (playerPred ⟨none, none, none, none, some m, some M, none⟩ d = true ↔
         ∃ x, d.age = some x ∧ m ≤ x ∧ x ≤ M)) ∧
    (∀ (m : Int) (mt : MatchDoc),
       (matchPred ⟨none, none, none, none, some m, none, none⟩ mt = true ↔
         ∃ x, mt.date = some x ∧ m ≤ x)) ∧
    (∀ (M : Int) (mt : MatchDoc),
       (matchPred ⟨none, none, none, none, none, some M, none⟩ mt = true ↔
         ∃ x, mt.date = some x ∧ x ≤ M)) ∧
    (∀ (m M : Int) (mt : MatchDoc),
       (matchPred ⟨none, none, none, none, some m, some M, none⟩ mt = true ↔
         ∃ x, mt.date = some x ∧ m ≤ x ∧ x ≤ M)) ∧
    (∀ (m M : Int) (db : List PlayerDoc) (limit : Nat) (d : PlayerDoc),
       (db.filter
         (playerPred ⟨none, none, none, none, some m, some M, none⟩)).length ≤
           limit →
       (d ∈ get_players db ⟨none, none, none, none, some m, some M, none⟩
          0 limit ↔
         d ∈ db ∧ ∃ x, d.age = some x ∧ m ≤ x ∧ x ≤ M)) := by
  have hlo : ∀ (m : Int) (d : PlayerDoc),
      playerPred ⟨none, none, none, none, some m, none, none⟩ d =
        rangeConstraint (buildRange (some m) none) d.age := by
    intro m d
    simp [playerPred, textConstraint_none, exactConstraint_none,
      boolConstraint_none]
  have hhi : ∀ (M : Int) (d : PlayerDoc),
      playerPred ⟨none, none, none, none, none, some M, none⟩ d =
        rangeConstraint (buildRange none (some M)) d.age := by
    intro M d
    simp [playerPred, textConstraint_none, exactConstraint_none,
      boolConstraint_none]
  have hboth : ∀ (m M : Int) (d : PlayerDoc),
      playerPred ⟨none, none, none, none, some m, some M, none⟩ d =
        rangeConstraint (buildRange (some m) (some M)) d.age := by
    intro m M d
    simp [playerPred, textConstraint_none, exactConstraint_none,
      boolConstraint_none]
  have mlo : ∀ (m : Int) (mt : MatchDoc),
      matchPred ⟨none, none, none, none, some m, none, none⟩ mt =
        rangeConstraint (buildRange (some m) none) mt.date := by
    intro m mt
    simp [matchPred, textConstraint_none, exactConstraint_none,
      boolConstraint_none, orTeamConstraint_none]
  have mhi : ∀ (M : Int) (mt : MatchDoc),
      matchPred ⟨none, none, none, none, none, some M, none⟩ mt =
        rangeConstraint (buildRange none (some M)) mt.date := by
    intro M mt
    simp [matchPred, textConstraint_none, exactConstraint_none,
      boolConstraint_none, orTeamConstraint_none]
  have mboth : ∀ (m M : Int) (mt : MatchDoc),
      matchPred ⟨none, none, none, none, some m, some M, none⟩ mt =
        rangeConstraint (buildRange (some m) (some M)) mt.date := by
    intro m M mt
    simp [matchPred, textConstraint_none, exactConstraint_none,
      boolConstraint_none, orTeamConstraint_none]
  have rlo : ∀ (m : Int) (v : Option Int),
      (rangeConstraint (buildRange (some m) none) v = true ↔
        ∃ x, v = some x ∧ m ≤ x) := by
    intro m v
    cases v <;> simp [rangeConstraint, buildRange, evalRange]
  have rhi : ∀ (M : Int) (v : Option Int),
      (rangeConstraint (buildRange none (some M)) v = true ↔
        ∃ x, v = some x ∧ x ≤ M) := by
    intro M v
    cases v <;> simp [rangeConstraint, buildRange, evalRange]
  have rboth : ∀ (m M : Int) (v : Option Int),
      (rangeConstraint (buildRange (some m) (some M)) v = true ↔
        ∃ x, v = some x ∧ m ≤ x ∧ x ≤ M) := by
    intro m M v
    cases v <;> simp [rangeConstraint, buildRange, evalRange]
  refine ⟨fun m d => ?_, fun M d => ?_, fun m M d => ?_, fun m mt => ?_,
    fun M mt => ?_, fun m M mt => ?_, fun m M db limit d hlen => ?_⟩
  · rw [hlo]; exact rlo m d.age
  · rw [hhi]; exact rhi M d.age
  · rw [hboth]; exact rboth m M d.age
  · rw [mlo]; exact rlo m mt.date
  · rw [mhi]; exact rhi M mt.date
  · rw [mboth]; exact rboth m M mt.date
  · unfold get_players
    rw [mem_filterTake _ _ _ hlen]
    exact and_congr_right fun _ => by rw [hboth]; exact rboth m M d.age

/-- C6 witness: the player of age 25 is listed under
`min_age=20&max_age=30`. -/
theorem spec_C6_witness :
    (List.filter (playerPred ⟨none, none, none, none, some 20, some 30, none⟩)
      [⟨"aaaaaaaaaaaaaaaaaaaaaaaa", some "Alice", none, none, some 25, none,
        some true, some 0, none⟩]).length ≤ 100 ∧
    ((⟨"aaaaaaaaaaaaaaaaaaaaaaaa", some "Alice", none, none, some 25, none,
        some true, some 0, none⟩ : PlayerDoc) ∈
      get_players
        [⟨"aaaaaaaaaaaaaaaaaaaaaaaa", some "Alice", none, none, some 25, none,
          some true, some 0, none⟩]
        ⟨none, none, none, none, some 20, some 30, none⟩ 0 100) := by
  refine ⟨by decide, ?_⟩
  exact ((spec_C6_range_filters.2.2.2.2.2.2 20 30
    [⟨"aaaaaaaaaaaaaaaaaaaaaaaa", some "Alice", none, none, some 25, none,
      some true, some 0, none⟩]
    100
    ⟨"aaaaaaaaaaaaaaaaaaaaaaaa", some "Alice", none, none, some 25, none,
      some true, some 0, none⟩
    (by decide)).mpr ⟨by decide, 25, rfl, by decide, by decide⟩)

/-- C7: when the `team_id` parameter of the match list is supplied
(non-empty), a stored match is included only if its `home_team_id` or its
`away_team_id` equals the given value; the `$or` constraint is a top-level
query key, ANDed independently with any explicit `home_team_id` /
`away_team_id` (and other) parameters; with only `team_id=t` supplied a
match is returned iff one of its two team fields equals `t` — in
particular a match with `home_team_id = t` is returned regardless of its
`away_team_id`. -/
theorem spec_C7_team_or_filter :
    (∀ (t : String) (q : MatchQuery) (m : MatchDoc),
       q.team_id = some t → t.isEmpty = false →
       matchPred q m = true →
       (m.home_team_id = some t ∨ m.away_team_id = some t)) ∧
    (∀ (t : String) (h a st : Option String) (df dt : Option Int)
       (it : Option Bool) (m : MatchDoc),
       t.isEmpty = false →
       matchPred ⟨h, a, some t, st, df, dt, it⟩ m =
         (matchPred ⟨h, a, none, st, df, dt, it⟩ m &&
          ((m.home_team_id == some t) || (m.away_team_id == some t)))) ∧
    (∀ (t : String) (db : List MatchDoc) (limit : Nat) (m : MatchDoc),
       t.isEmpty = false →
       (db.filter
         (matchPred ⟨none, none, some t, none, none, none, none⟩)).length ≤
           limit →
       (m ∈ get_matches db ⟨none, none, some t, none, none, none, none⟩
          0 limit ↔
         m ∈ db ∧ (m.home_team_id = some t ∨ m.away_team_id = some t))) := by
  have hcol : ∀ (t : String) (m : MatchDoc),
      matchPred ⟨none, none, some t, none, none, none, none⟩ m =
        orTeamConstraint (some t) m := by
    intro t m
    simp [matchPred, textConstraint_none, exactConstraint_none,
      boolConstraint_none, rangeConstraint_none]
  have hor : ∀ (t : String) (m : MatchDoc), t.isEmpty = false →
      (orTeamConstraint (some t) m = true ↔
        (m.home_team_id = some t ∨ m.away_team_id = some t)) := by
    intro t m hne
    simp [orTeamConstraint, hne]
  refine ⟨fun t q m hq hne hp => ?_, fun t h a st df dt it m hne => ?_,
    fun t db limit m hne hlen => ?_⟩
  · rw [show q = ⟨q.home_team_id, q.away_team_id, q.team_id, q.stadium,
        q.date_from, q.date_to, q.is_test⟩ from rfl, hq] at hp
    simp only [matchPred, Bool.and_eq_true] at hp
    exact (hor t m hne).mp hp.1.1.1.2
  · simp only [matchPred, orTeamConstraint, hne, Bool.false_eq_true,
      if_false, Bool.true_and]
    generalize exactConstraint h m.home_team_id = b1
    generalize exactConstraint a m.away_team_id = b2
    generalize (m.home_team_id == some t || m.away_team_id == some t) = b3
    generalize textConstraint st m.stadium = b4
    generalize rangeConstraint (buildRange df dt) m.date = b5
    generalize boolConstraint it m.is_test = b6
    revert b1 b2 b3 b4 b5 b6
    decide
  · unfold get_matches
    rw [mem_filterTake _ _ _ hlen]
    exact and_congr_right fun _ => by rw [hcol]; exact hor t m hne

/-- C7 witness: a match with `home_team_id = "A"` and `away_team_id = "B"`
is returned when filtering matches by `team_id=A`. -/
theorem spec_C7_witness :
    "A".isEmpty = false ∧
    (List.filter (matchPred ⟨none, none, some "A", none, none, none, none⟩)
      [⟨"bbbbbbbbbbbbbbbbbbbbbbbb", some "A", some "B", none, none, none,
        none, some true, some 0, none⟩]).length ≤ 100 ∧
    ((⟨"bbbbbbbbbbbbbbbbbbbbbbbb", some "A", some "B", none, none, none,
        none, some true, some 0, none⟩ : MatchDoc) ∈
      get_matches
        [⟨"bbbbbbbbbbbbbbbbbbbbbbbb", some "A", some "B", none, none, none,
          none, some true, some 0, none⟩]
        ⟨none, none, some "A", none, none, none, none⟩ 0 100) := by
  refine ⟨by decide, by decide, ?_⟩
  exact ((spec_C7_team_or_filter.2.2 "A"
    [⟨"bbbbbbbbbbbbbbbbbbbbbbbb", some "A", some "B", none, none, none,
      none, some true, some 0, none⟩]
    100
    ⟨"bbbbbbbbbbbbbbbbbbbbbbbb", some "A", some "B", none, none, none,
      none, some true, some 0, none⟩
    (by decide) (by decide)).mpr ⟨by decide, Or.inl rfl⟩)

/-- C8: for every get, update or delete request on any of the three
collections, a malformed identifier yields InvalidIdentifier (400) —
distinguishable from NotFound — with the collection state untouched, so
before any store mutation; a well-formed identifier matching no record
yields NotFound (404); and, ids being unique in the store, repeating a
delete against an already-deleted identifier yields NotFound rather than a
crash. -/
theorem spec_C8_identifier_errors :
    (∀ (pid : String), isValidObjectId pid = false →
       (∀ (players : List PlayerDoc) (u : PlayerUpdate) (now : Nat),
          get_player players pid = .error .invalidId ∧
          update_player players pid u now = (players, .error .invalidId) ∧
          delete_player players pid = (players, .error .invalidId)) ∧
       (∀ (teams : List TeamDoc) (u : TeamUpdate) (now : Nat),
          get_team teams pid = .error .invalidId ∧
          update_team teams pid u now = (teams, .error .invalidId) ∧
          delete_team teams pid = (teams, .error .invalidId)) ∧
       (∀ (ms : List MatchDoc) (u : MatchUpdate) (now : Nat),
          get_match ms pid = .error .invalidId ∧
          update_match ms pid u now = (ms, .error .invalidId) ∧
          delete_match ms pid = (ms, .error .invalidId))) ∧
    (∀ (pid : String), isValidObjectId pid = true →
       (∀ (players : List PlayerDoc) (u : PlayerUpdate) (now : Nat),
          players.find? (fun d => d.id == pid) = none →
          get_player players pid = .error .notFound ∧
          update_player players pid u now = (players, .error .notFound) ∧
          delete_player players pid = (players, .error .notFound)) ∧
       (∀ (teams : List TeamDoc) (u : TeamUpdate) (now : Nat),
          teams.find? (fun d => d.id == pid) = none →
          get_team teams pid = .error .notFound ∧
          update_team teams pid u now = (teams, .error .notFound) ∧
          delete_team teams pid = (teams, .error .notFound)) ∧
       (∀ (ms : List MatchDoc) (u : MatchUpdate) (now : Nat),
          ms.find? (fun d => d.id == pid) = none →
          get_match ms pid = .error .notFound ∧
          update_match ms pid u now = (ms, .error .notFound) ∧
          delete_match ms pid = (ms, .error .notFound))) ∧
    (∀ (pid : String),
       (∀ (players players' : List PlayerDoc),
          players.countP (fun d => d.id == pid) ≤ 1 →
          delete_player players pid = (players', .ok ()) →
          delete_player players' pid = (players', .error .notFound)) ∧
       (∀ (teams teams' : List TeamDoc),
          teams.countP (fun d => d.id == pid) ≤ 1 →
          delete_team teams pid = (teams', .ok ()) →
          delete_team teams' pid = (teams', .error .notFound)) ∧
       (∀ (ms ms' : List MatchDoc),
          ms.countP (fun d => d.id == pid) ≤ 1 →
          delete_match ms pid = (ms', .ok ()) →
          delete_match ms' pid = (ms', .error .notFound))) := by
  refine ⟨fun pid hv => ⟨fun l u now => ?_, fun l u now => ?_,
      fun l u now => ?_⟩,
    fun pid hv => ⟨fun l u now hf => ?_, fun l u now hf => ?_,
      fun l u now hf => ?_⟩,
    fun pid => ⟨fun l l' hc hd => ?_, fun l l' hc hd => ?_,
      fun l l' hc hd => ?_⟩⟩
  · exact ⟨by simp [get_player, hv], by simp [update_player, hv],
      by simp [delete_player, hv]⟩
  · exact ⟨by simp [get_team, hv], by simp [update_team, hv],
      by simp [delete_team, hv]⟩
  · exact ⟨by simp [get_match, hv], by simp [update_match, hv],
      by simp [delete_match, hv]⟩
  · exact ⟨by simp [get_player, hv, hf], by simp [update_player, hv, hf],
      by simp [delete_player, hv, hf]⟩
  · exact ⟨by simp [get_team, hv, hf], by simp [update_team, hv, hf],
      by simp [delete_team, hv, hf]⟩
  · exact ⟨by simp [get_match, hv, hf], by simp [update_match, hv, hf],
      by simp [delete_match, hv, hf]⟩
  · by_cases hv : isValidObjectId pid = true
    · rcases hfind : l.find? (fun d => d.id == pid) with _ | d
      · simp [delete_player, hv, hfind] at hd
      · by_cases hte : boolTruthy d.is_test = true
        · have hl' : l' = l.eraseP (fun d => d.id == pid) := by
            simp [delete_player, hv, hfind, hte] at hd
            exact hd.symm
          have : l'.find? (fun d => d.id == pid) = none := by
            rw [hl']; exact find?_eraseP_of_countP_le_one _ l hc
          simp [delete_player, hv, this]
        · simp [delete_player, hv, hfind, hte] at hd
    · simp [delete_player, hv] at hd
  · by_cases hv : isValidObjectId pid = true
    · rcases hfind : l.find? (fun d => d.id == pid) with _ | d
      · simp [delete_team, hv, hfind] at hd
      · by_cases hte : boolTruthy d.is_test = true
        · have hl' : l' = l.eraseP (fun d => d.id == pid) := by
            simp [delete_team, hv, hfind, hte] at hd
            exact hd.symm
          have : l'.find? (fun d => d.id == pid) = none := by
            rw [hl']; exact find?_eraseP_of_countP_le_one _ l hc
          simp [delete_team, hv, this]
        · simp [delete_team, hv, hfind, hte] at hd
    · simp [delete_team, hv] at hd
  · by_cases hv : isValidObjectId pid = true
    · rcases hfind : l.find? (fun d => d.id == pid) with _ | d
      · simp [delete_match, hv, hfind] at hd
      · by_cases hte : boolTruthy d.is_test = true
        · have hl' : l' = l.eraseP (fun d => d.id == pid) := by
            simp [delete_match, hv, hfind, hte] at hd
            exact hd.symm
          have : l'.find? (fun d => d.id == pid) = none := by
            rw [hl']; exact find?_eraseP_of_countP_le_one _ l hc
          simp [delete_match, hv, this]
        · simp [delete_match, hv, hfind, hte] at hd
    · simp [delete_match, hv] at hd

/-- C8 witness: `not-an-id` is rejected as malformed with the store
untouched; a well-formed but unknown id yields NotFound; deleting a test
player twice yields NotFound the second time. -/
theorem spec_C8_witness :
    isValidObjectId "not-an-id" = false ∧
    get_player [] "not-an-id" = .error .invalidId ∧
    isValidObjectId "cccccccccccccccccccccccc" = true ∧
    get_player [] "cccccccccccccccccccccccc" = .error .notFound ∧
    (List.countP (fun d : PlayerDoc => d.id == "cccccccccccccccccccccccc")
      [⟨"cccccccccccccccccccccccc", some "Bob", none, none, none, none,
        some true, some 0, none⟩]) ≤ 1 ∧
    delete_player
      [⟨"cccccccccccccccccccccccc", some "Bob", none, none, none, none,
        some true, some 0, none⟩]
      "cccccccccccccccccccccccc" = ([], .ok ()) ∧
    delete_player [] "cccccccccccccccccccccccc" = ([], .error .notFound) := by
  refine ⟨by decide, ?_, by decide, ?_, by decide, by decide, ?_⟩
  · exact ((spec_C8_identifier_errors.1 "not-an-id" (by decide)).1 []
      ⟨none, none, none, none, none⟩ 0).1
  · exact ((spec_C8_identifier_errors.2.1 "cccccccccccccccccccccccc"
      (by decide)).1 [] ⟨none, none, none, none, none⟩ 0 rfl).1
  · exact (spec_C8_identifier_errors.2.2 "cccccccccccccccccccccccc").1
      [⟨"cccccccccccccccccccccccc", some "Bob", none, none, none, none,
        some true, some 0, none⟩]
      [] (by decide) (by decide)

/-- C9 counterexample: `MatchCreate` declares `home_team_id` (and
`away_team_id`) as required `str` fields with no default, so a
`POST /matches` body omitting `home_team_id` fails pydantic validation
(HTTP 422) instead of succeeding — refuting the claim that each is
optional at creation. -/
theorem spec_C9_counterexample :
    parseMatchCreate ⟨none, some "A", none, none, none, none⟩ = none := rfl

/-- C9 amended: at match creation `home_team_id` and `away_team_id` are
required — validation succeeds exactly when both are supplied — while
`date`, `home_score`, `away_score` and `stadium` are optional with default
`None`: a valid body omitting all of them is accepted and the stored match
carries `None` for each. -/
theorem spec_C9_amended_match_create_fields :
    (∀ r : RawMatchCreate,
       (parseMatchCreate r).isSome =
         (r.home_team_id.isSome && r.away_team_id.isSome)) ∧
    (∀ (r : RawMatchCreate) (c : MatchCreate),
       parseMatchCreate r = some c →
       r.home_team_id = some c.home_team_id ∧
       r.away_team_id = some c.away_team_id ∧
       c.date = r.date ∧ c.home_score = r.home_score ∧
       c.away_score = r.away_score ∧ c.stadium = r.stadium) ∧
    (∀ (h a : String),
       parseMatchCreate ⟨some h, some a, none, none, none, none⟩ =
         some ⟨h, a, none, none, none, none⟩) ∧
    (∀ (ms : List MatchDoc) (h a : String) (now : Nat) (newId : String),
       (create_match ms ⟨h, a, none, none, none, none⟩ now newId).2.date =
           none ∧
       (create_match ms ⟨h, a, none, none, none, none⟩ now
           newId).2.home_score = none ∧
       (create_match ms ⟨h, a, none, none, none, none⟩ now
           newId).2.away_score = none ∧
       (create_match ms ⟨h, a, none, none, none, none⟩ now
           newId).2.stadium = none) := by
  refine ⟨fun r => ?_, fun r c hc => ?_, fun h a => rfl,
    fun ms h a now newId => ⟨rfl, rfl, rfl, rfl⟩⟩
  · rcases r with ⟨_ | h, _ | a, d, hs, as_, st⟩ <;> rfl
  · rcases r with ⟨_ | h, _ | a, d, hs, as_, st⟩
    · simp [parseMatchCreate] at hc
    · simp [parseMatchCreate] at hc
    · simp [parseMatchCreate] at hc
    · simp only [parseMatchCreate] at hc
      simp [← Option.some_inj.mp hc]

/-- C9 witness: a body carrying both team ids and nothing else validates,
and the created match stores the optional fields at their `None`
defaults. -/
theorem spec_C9_witness :
    parseMatchCreate ⟨some "A", some "B", none, none, none, none⟩ =
      some ⟨"A", "B", none, none, none, none⟩ ∧
    some "A" = some (⟨"A", "B", none, none, none, none⟩ : MatchCreate).home_team_id ∧
    (create_match [] ⟨"A", "B", none, none, none, none⟩ 0
      "dddddddddddddddddddddddd").2.date = none := by
  refine ⟨rfl, ?_, ?_⟩
  · exact ((spec_C9_amended_match_create_fields.2.1
      ⟨some "A", some "B", none, none, none, none⟩
      ⟨"A", "B", none, none, none, none⟩ rfl).1)
  · exact (spec_C9_amended_match_create_fields.2.2.2 []
      "A" "B" 0 "dddddddddddddddddddddddd").1

theorem textConstraint_some_empty (f : Option String) :
    textConstraint (some "") f = true := rfl

theorem exactConstraint_some_empty (f : Option String) :
    exactConstraint (some "") f = true := rfl

theorem orTeamConstraint_some_empty (m : MatchDoc) :
    orTeamConstraint (some "") m = true := rfl

/-- C10: the handlers test text and identifier parameters for Python
truthiness (`if name:`), so supplying the empty string for any such filter
(name, position, nationality, country, league, stadium, team_id,
home_team_id, away_team_id) adds no query key: every list operation returns
exactly what it returns with the parameter omitted, whatever the other
parameters, skip and limit are. -/
theorem spec_C10_empty_string_filters :
    ∀ (skip limit : Nat),
    (∀ (players : List PlayerDoc) (q : PlayerQuery),
       get_players players { q with name := some "" } skip limit =
         get_players players { q with name := none } skip limit ∧
       get_players players { q with position := some "" } skip limit =
         get_players players { q with position := none } skip limit ∧
       get_players players { q with team_id := some "" } skip limit =
         get_players players { q with team_id := none } skip limit ∧
       get_players players { q with nationality := some "" } skip limit =
         get_players players { q with nationality := none } skip limit) ∧
    (∀ (teams : List TeamDoc) (q : TeamQuery),
       get_teams teams { q with name := some "" } skip limit =
         get_teams teams { q with name := none } skip limit ∧
       get_teams teams { q with country := some "" } skip limit =
         get_teams teams { q with country := none } skip limit ∧
       get_teams teams { q with league := some "" } skip limit =
         get_teams teams { q with league := none } skip limit) ∧
    (∀ (ms : List MatchDoc) (q : MatchQuery),
       get_matches ms { q with home_team_id := some "" } skip limit =
         get_matches ms { q with home_team_id := none } skip limit ∧
       get_matches ms { q with away_team_id := some "" } skip limit =
         get_matches ms { q with away_team_id := none } skip limit ∧
       get_matches ms { q with team_id := some "" } skip limit =
         get_matches ms { q with team_id := none } skip limit ∧
       get_matches ms { q with stadium := some "" } skip limit =
         get_matches ms { q with stadium := none } skip limit) := by
  intro skip limit
  refine ⟨fun players q => ?_, fun teams q => ?_, fun ms q => ?_⟩
  · refine ⟨?_, ?_, ?_, ?_⟩ <;>
      · unfold get_players
        rw [List.filter_congr (fun d _ => ?_)]
        simp [playerPred, textConstraint_some_empty, textConstraint_none,
          exactConstraint_some_empty, exactConstraint_none]
  · refine ⟨?_, ?_, ?_⟩ <;>
      · unfold get_teams
        rw [List.filter_congr (fun d _ => ?_)]
        simp [teamPred, textConstraint_some_empty, textConstraint_none]
  · refine ⟨?_, ?_, ?_, ?_⟩ <;>
      · unfold get_matches
        rw [List.filter_congr (fun d _ => ?_)]
        simp [matchPred, textConstraint_some_empty, textConstraint_none,
          exactConstraint_some_empty, exactConstraint_none,
          orTeamConstraint_some_empty, orTeamConstraint_none]
